import Mathlib

/-!
Verification of the conversational task-management core of the
PHASE-III-TODO-CHATBOT-INTEGRATION repository.

The definitions below are a shallow embedding of:
  * `backend/app/utils/language.py` (`detect_language`),
  * `backend/app/services/chat_service.py` (`_detect_intent`,
    `_parse_natural_date`, `_extract_task_info`, `_resolve_task_reference`,
    `_search_task_by_title`, `_parse_and_execute_tools`,
    `_call_openrouter_simple`, `send_message` turn pipeline),
  * `backend/mcp_server/task_tools.py` (`complete_task`).

Python regular-expression searches are embedded through a small
Brzozowski-derivative matcher (`Rx`, `reSearch`) that supports exactly the
constructs the source patterns use: literals, character classes, `.`
(which does not match a newline), alternation, star, word boundaries
`\x62`-style `\b`, and end-of-string `$`.  Machine-level details that the
source leaves to CPython (string objects, float percentages) are embedded
as `List Char` and exact integer arithmetic.
-/

namespace Todo

/-- Python `str.isspace` / `str.strip` whitespace set (the characters
CPython treats as whitespace), by code point. -/
def pyIsSpace (c : Char) : Bool :=
  let n := c.toNat
  n = 0x20 || n = 0x9 || n = 0xa || n = 0xd || n = 0xb || n = 0xc ||
  (0x1c ≤ n && n ≤ 0x1f) || n = 0x85 || n = 0xa0 ||
  n = 0x1680 || (0x2000 ≤ n && n ≤ 0x200a) ||
  n = 0x2028 || n = 0x2029 || n = 0x202f ||
  n = 0x205f || n = 0x3000

/-- Character of the Arabic-script Unicode block U+0600–U+06FF that
`detect_language` counts as an Urdu character. -/
def isUrduChar (c : Char) : Bool :=
  0x600 ≤ c.toNat && c.toNat ≤ 0x6ff

/-- Word character for the regex `\b` boundary: ASCII alphanumerics,
underscore, and the Arabic-script block U+0600–U+06FF used by the Urdu
patterns of the source. -/
def isWordChar (c : Char) : Bool :=
  c.isAlpha || c.isDigit || c = '_' || isUrduChar c

/-- Python `str.lower` restricted to the alphabets the source manipulates
(ASCII letters; the Urdu script has no case). -/
def pyLowerChar (c : Char) : Char := c.toLower

def pyLower (s : String) : String := ⟨s.data.map pyLowerChar⟩

/-- Python `str.strip()` on a character list. -/
def pyStripList (l : List Char) : List Char :=
  ((l.dropWhile pyIsSpace).reverse.dropWhile pyIsSpace).reverse

def pyStrip (s : String) : String := ⟨pyStripList s.data⟩

/-- Digits of a decimal numeral to a natural number. -/
def digitsToNat (l : List Char) : Nat :=
  l.foldl (fun acc c => acc * 10 + (c.toNat - '0'.toNat)) 0

/-- Python `int(s)` on a string: optional surrounding whitespace, optional
sign, a nonempty digit run (numeric-only underscores of Python 3.6+ are
not produced by the JSON round-trips modelled here). -/
def pyParseInt (s : String) : Option Int :=
  let t := pyStripList s.data
  match t with
  | '-' :: rest =>
      if rest ≠ [] && rest.all Char.isDigit then some (-(digitsToNat rest : Int)) else none
  | '+' :: rest =>
      if rest ≠ [] && rest.all Char.isDigit then some (digitsToNat rest : Int) else none
  | rest =>
      if rest ≠ [] && rest.all Char.isDigit then some (digitsToNat rest : Int) else none

/-! ### A Brzozowski-derivative matcher for the source's regex subset -/

inductive Rx where
  | fail : Rx
  | eps : Rx
  | pred : (Char → Bool) → Rx
  | seq : Rx → Rx → Rx
  | alt : Rx → Rx → Rx
  | star : Rx → Rx
  | wb : Rx        -- `\b` word boundary
  | eos : Rx       -- `$` end of subject

namespace Rx

/-- Nullability of a regex at a mid-string position whose previous
character has word-status `pw` and whose next character is `c`. -/
def nullableMid : Rx → Bool → Char → Bool
  | fail, _, _ => false
  | eps, _, _ => true
  | pred _, _, _ => false
  | seq a b, pw, c => nullableMid a pw c && nullableMid b pw c
  | alt a b, pw, c => nullableMid a pw c || nullableMid b pw c
  | star _, _, _ => true
  | wb, pw, c => pw != isWordChar c
  | eos, _, _ => false

/-- Nullability at the end of the subject (previous word-status `pw`). -/
def nullableEnd : Rx → Bool → Bool
  | fail, _ => false
  | eps, _ => true
  | pred _, _ => false
  | seq a b, pw => nullableEnd a pw && nullableEnd b pw
  | alt a b, pw => nullableEnd a pw || nullableEnd b pw
  | star _, _ => true
  | wb, pw => pw
  | eos, _ => true

/-- Derivative with respect to the character `c`, at a position whose
previous character has word-status `pw`. -/
def deriv : Rx → Bool → Char → Rx
  | fail, _, _ => fail
  | eps, _, _ => fail
  | pred p, _, c => if p c then eps else fail
  | seq a b, pw, c =>
      if nullableMid a pw c then alt (seq (deriv a pw c) b) (deriv b pw c)
      else seq (deriv a pw c) b
  | alt a b, pw, c => alt (deriv a pw c) (deriv b pw c)
  | star a, pw, c => seq (deriv a pw c) (star a)
  | wb, _, _ => fail
  | eos, _, _ => fail

/-- Does `r` match the whole of `s`, starting at a position whose previous
character has word-status `pw`? -/
def acceptFrom : Rx → Bool → List Char → Bool
  | r, pw, [] => nullableEnd r pw
  | r, pw, c :: rest => acceptFrom (deriv r pw c) (isWordChar c) rest

/-- Does `r` match some prefix of `s` (nondeterministically)?  Folds the
derivative and checks nullability at every intermediate position. -/
def matchesPrefix : Rx → Bool → List Char → Bool
  | r, pw, [] => nullableEnd r pw
  | r, pw, c :: rest => nullableMid r pw c || matchesPrefix (deriv r pw c) (isWordChar c) rest

/-- Python `re.search(r, s) is not None`: some substring of `s` matches. -/
def searchFrom : Rx → Bool → List Char → Bool
  | r, pw, [] => nullableEnd r pw
  | r, pw, c :: rest => matchesPrefix r pw (c :: rest) || searchFrom r (isWordChar c) rest

end Rx

/-- `re.search(r, s)` as a Boolean, from the start of the subject. -/
def reSearch (r : Rx) (s : String) : Bool :=
  Rx.searchFrom r false s.data

/-- Literal string regex. -/
def lit (s : String) : Rx :=
  s.data.foldr (fun c acc => Rx.seq (Rx.pred (fun x => x = c)) acc) Rx.eps

/-- Concatenation of a pattern list. -/
def rcat (l : List Rx) : Rx := l.foldr Rx.seq Rx.eps

/-- Alternation over a nonempty list (empty list never matches). -/
def ralt (l : List Rx) : Rx := l.foldr Rx.alt Rx.fail

/-- `.` — any character but a newline (Python default, no DOTALL). -/
def dotAny : Rx := Rx.pred (fun c => c ≠ '\n')

/-- `.*` -/
def dotStar : Rx := Rx.star dotAny

/-- `\s` -/
def wsChar : Rx := Rx.pred pyIsSpace

/-- `\s+` -/
def wsPlus : Rx := Rx.seq wsChar (Rx.star wsChar)

/-- `\s*` -/
def wsStar : Rx := Rx.star wsChar

/-- `\bw\b` — a whole word. -/
def word (s : String) : Rx := rcat [Rx.wb, lit s, Rx.wb]

/-- `r?` -/
def ropt (r : Rx) : Rx := Rx.alt r Rx.eps

/-! ### `_detect_intent` (chat_service.py lines 916–1068)

The four pattern families, transcribed regex by regex, in source order.
`_detect_intent` lowercases the message and applies `re.search` without
flags, returning on the first family whose pattern matches. -/

def deletePatterns : List Rx :=
  [ rcat [word "delete", dotStar, word "task"],
    rcat [word "remove", dotStar, word "task"],
    rcat [word "task", dotStar, word "delete"],
    rcat [word "task", dotStar, word "remove"],
    rcat [word "delete", wsPlus, ropt (rcat [lit "the", wsPlus]),
          Rx.pred (fun c => c.isAlpha)],
    rcat [word "remove", wsPlus, ropt (rcat [lit "the", wsPlus]),
          Rx.pred (fun c => c.isAlpha)],
    rcat [word "kaam", dotStar, word "delete"],
    rcat [word "kaam", dotStar, word "hatao"],
    rcat [word "hatao", dotStar, word "task"],
    rcat [lit "حذف", dotStar, lit "کام"],
    rcat [lit "کام", dotStar, lit "حذف"],
    rcat [lit "ہٹا", dotStar, lit "کام"],
    rcat [lit "کام", dotStar, lit "ہٹا"],
    rcat [lit "ڈیلیٹ", dotStar, lit "کام"],
    rcat [lit "کام", dotStar, lit "ڈیلیٹ"] ]

def completePatterns : List Rx :=
  [ rcat [word "complete", dotStar, word "task"],
    rcat [word "mark", dotStar, Rx.wb, ralt [lit "done", lit "completed"], Rx.wb],
    rcat [word "mark", dotStar, word "task", dotStar,
          Rx.wb, ralt [lit "done", lit "completed", lit "complete"], Rx.wb],
    rcat [word "finish", dotStar, word "task"],
    rcat [word "task", dotStar, word "complete"],
    rcat [word "task", dotStar, word "done"],
    rcat [word "kaam", dotStar, Rx.wb, lit "ho", wsStar, lit "gaya", Rx.wb],
    rcat [word "kaam", dotStar, word "complete"],
    rcat [lit "مکمل", dotStar, lit "کام"],
    rcat [lit "کام", dotStar, lit "مکمل"],
    rcat [lit "ہو", dotStar, lit "گیا"],
    rcat [lit "ختم", dotStar, lit "کام"],
    rcat [lit "کام", dotStar, lit "ختم"],
    rcat [lit "کام", dotStar, lit "ہو", dotStar, lit "گیا"] ]

def addPatterns : List Rx :=
  [ rcat [word "add", dotStar, word "task"],
    rcat [word "create", dotStar, word "task"],
    rcat [word "new", dotStar, word "task"],
    rcat [word "task", dotStar, word "add"],
    rcat [word "kaam", dotStar, word "add"],
    rcat [word "task", dotStar, word "banao"],
    rcat [word "nayi", dotStar, word "task"],
    rcat [word "naya", dotStar, word "kaam"],
    rcat [lit "نیا", dotStar, lit "کام"],
    rcat [lit "کام", dotStar, lit "شامل"],
    rcat [lit "شامل", dotStar, lit "کام"],
    rcat [lit "کام", dotStar, lit "بنا"],
    rcat [lit "بنا", dotStar, lit "کام"],
    rcat [lit "کام", dotStar, lit "ایڈ"],
    rcat [lit "ایڈ", dotStar, lit "کام"],
    rcat [lit "ٹاسک", dotStar, lit "ڈال"],
    rcat [lit "ڈال", dotStar, lit "ٹاسک"],
    rcat [lit "ٹاسک", dotStar, lit "میں", dotStar, lit "ڈال"],
    rcat [lit "ٹاسک", dotStar, lit "شامل"],
    rcat [lit "شامل", dotStar, lit "ٹاسک"],
    rcat [lit "ٹاسک", dotStar, lit "بنا"],
    rcat [lit "بنا", dotStar, lit "ٹاسک"],
    rcat [lit "کام", dotStar, lit "ڈال"],
    rcat [lit "ڈال", dotStar, lit "کام"],
    rcat [lit "میں", dotStar, lit "ڈال"] ]

def listPatterns : List Rx :=
  [ rcat [word "list", dotStar, Rx.wb, lit "task"],
    rcat [word "show", dotStar, Rx.wb, lit "task"],
    rcat [word "my", dotStar, Rx.wb, lit "task"],
    rcat [word "view", dotStar, Rx.wb, lit "task"],
    rcat [word "see", dotStar, Rx.wb, lit "task"],
    rcat [Rx.wb, lit "how", wsPlus, lit "many", Rx.wb, dotStar, Rx.wb, lit "task"],
    rcat [Rx.wb, lit "task", dotStar, Rx.wb, lit "list"],
    rcat [word "task", dotStar, word "dikhao"],
    rcat [word "meray", dotStar, word "kaam"],
    rcat [word "mere", dotStar, Rx.wb, lit "task"],
    rcat [word "kitne", dotStar, Rx.wb, lit "task"],
    rcat [word "kitnay", dotStar, Rx.wb, lit "task"],
    rcat [word "task", dotStar, Rx.wb, lit "hein"],
    rcat [word "task", dotStar, Rx.wb, lit "hai"],
    rcat [word "kaam", dotStar, Rx.wb, lit "dikhao"],
    rcat [word "kaam", dotStar, Rx.wb, lit "hein"],
    rcat [lit "کام", dotStar, lit "دکھا"],
    rcat [lit "دکھا", dotStar, lit "کام"],
    rcat [lit "میرے", dotStar, lit "کام"],
    rcat [lit "کام", dotStar, lit "کتنے"],
    rcat [lit "کتنے", dotStar, lit "کام"],
    rcat [lit "کام", dotStar, lit "ہیں"],
    rcat [lit "کام", dotStar, lit "لسٹ"],
    rcat [lit "لسٹ", dotStar, lit "کام"] ]

/-- Does any pattern of a family match (the body of each `for pattern
in …: if re.search(...)` loop)? -/
def familyMatches (fam : List Rx) (s : String) : Bool :=
  fam.any (fun r => reSearch r s)

/-- `ChatService._detect_intent`: lowercase the message, then try the
delete, complete, add and list families in that fixed order. -/
def detectIntent (message : String) : Option String :=
  let ml := pyLower message
  if familyMatches deletePatterns ml then some "deleting_task"
  else if familyMatches completePatterns ml then some "completing_task"
  else if familyMatches addPatterns ml then some "adding_task"
  else if familyMatches listPatterns ml then some "listing_tasks"
  else none

/-! ### `detect_language` (backend/app/utils/language.py)

The source computes `(urdu_chars / total_chars) * 100 > 30` with Python
floats; for any text whose length is far below `2^50` the float
comparison agrees with the exact rational one, which is embedded here as
`100 * urdu_chars > 30 * total_chars`. -/

/-- Number of non-whitespace characters
(`len([c for c in text if not c.isspace()])`). -/
def nonSpaceCount (text : String) : Nat :=
  text.data.countP (fun c => !pyIsSpace c)

/-- Number of characters in the Urdu Unicode range
(`sum(1 for c in text if u0600 <= c <= u06FF)`). -/
def urduCharCount (text : String) : Nat :=
  text.data.countP isUrduChar

/-- `detect_language` from `app/utils/language.py`. -/
def detect_language (text : String) : String :=
  if text = "" ∨ pyStrip text = "" then "english"
  else
    let total_chars := nonSpaceCount text
    if total_chars = 0 then "english"
    else
      let urdu_chars := urduCharCount text
      if 100 * urdu_chars > 30 * total_chars then "urdu" else "english"

/-! ### `_parse_natural_date` (chat_service.py lines 1192–1253)

The source resolves relative dates against `datetime.now()`; the ambient
clock is embedded as an explicit `today : Nat` day index with Python's
weekday convention `weekday = today % 7` (0 = Monday).  All relative
results carry `now`'s time of day, so a result is either a day offset
from `now` (`fromNow`) or a literal `YYYY-MM-DD` at midnight
(`literal`). -/

inductive ParsedDate where
  | fromNow (day : Nat) : ParsedDate
  | literal (ymd : String) : ParsedDate
deriving DecidableEq, Repr

/-- Does `w` occur at the head of `s`? -/
def listStartsWith : List Char → List Char → Bool
  | [], _ => true
  | _ :: _, [] => false
  | w :: ws, c :: cs => w = c && listStartsWith ws cs

/-- Python `w in s` substring containment. -/
def containsSubstr (s w : List Char) : Bool :=
  (List.range (s.length + 1)).any (fun i => listStartsWith w (s.drop i))

/-- `\btoday\b|\bXXX\b|\baaj\b` (with the Urdu-script literal). -/
def todayRx : Rx := ralt [word "today", word "آج", word "aaj"]

/-- `\btomorrow\b|\bXXX\b|\bkal\b` (with the Urdu-script literal). -/
def tomorrowRx : Rx := ralt [word "tomorrow", word "کل", word "kal"]

/-- `\bnext\s+week\b|…` (English, Urdu-script and romanized forms). -/
def nextWeekRx : Rx :=
  ralt [rcat [Rx.wb, lit "next", wsPlus, lit "week", Rx.wb],
        rcat [Rx.wb, lit "اگلے", wsPlus, lit "ہفتے", Rx.wb],
        rcat [Rx.wb, lit "agle", wsPlus, lit "hafte", Rx.wb]]

/-- The `weekdays` dict of the source, in insertion order. -/
def romanWeekdays : List (String × Nat) :=
  [("monday", 0), ("tuesday", 1), ("wednesday", 2), ("thursday", 3),
   ("friday", 4), ("saturday", 5), ("sunday", 6),
   ("peer", 0), ("mangal", 1), ("budh", 2), ("jumerat", 3),
   ("juma", 4), ("hafta", 5), ("itwaar", 6)]

/-- The `urdu_weekdays` dict of the source, in insertion order. -/
def urduWeekdays : List (String × Nat) :=
  [("پیر", 0), ("منگل", 1), ("بدھ", 2), ("جمعرات", 3),
   ("جمعہ", 4), ("ہفتہ", 5), ("اتوار", 6)]

/-- First table entry whose name occurs in `s` (the `for day_name,
day_num in weekdays.items(): if day_name in text…` loop). -/
def firstFound (table : List (String × Nat)) (s : String) : Option Nat :=
  (table.find? (fun p => containsSubstr s.data p.1.data)).map (fun p => p.2)

/-- The two weekday loops of the source: romanized names against the
lowered text first, then Urdu-script names against the raw text.  Both
loop bodies compute the same `days_ahead` expression, so the pair
collapses to the first hit across the two tables. -/
def firstWeekdayFound (text : String) : Option Nat :=
  match firstFound romanWeekdays (pyLower text) with
  | some dn => some dn
  | none => firstFound urduWeekdays text

/-- `days_ahead = day_num - today.weekday(); if days_ahead <= 0:
days_ahead += 7`, with `wd = today.weekday()`. -/
def daysAhead (dayNum wd : Nat) : Nat :=
  if dayNum ≤ wd then dayNum + 7 - wd else dayNum - wd

/-- Take exactly `n` leading digits. -/
def takeExactDigits : Nat → List Char → Option (List Char × List Char)
  | 0, rest => some ([], rest)
  | n + 1, c :: rest =>
      if c.isDigit then (takeExactDigits n rest).map (fun p => (c :: p.1, p.2)) else none
  | _ + 1, [] => none

/-- `re.search(r'\b(\d{4}-\d{2}-\d{2})\b', text)`, returning the captured
date: at each position with previous word-status `pw`, a boundary, four
digits, a dash, two digits, a dash, two digits, and a closing boundary. -/
def isoScan : Bool → List Char → Option String
  | _, [] => none
  | pw, c :: rest =>
    (if pw then none
     else
       match takeExactDigits 4 (c :: rest) with
       | some (d1, '-' :: r1) =>
         match takeExactDigits 2 r1 with
         | some (d2, '-' :: r2) =>
           match takeExactDigits 2 r2 with
           | some (d3, r3) =>
             if (match r3 with | [] => true | c2 :: _ => !isWordChar c2) then
               some ⟨d1 ++ '-' :: (d2 ++ '-' :: d3)⟩
             else none
           | none => none
         | _ => none
       | _ => none) <|>
    isoScan (isWordChar c) rest

/-- `ChatService._parse_natural_date`: today / tomorrow / next week /
romanized weekday / Urdu-script weekday / ISO literal, first match
wins. -/
def parseNaturalDate (text : String) (today : Nat) : Option ParsedDate :=
  let tl := pyLower text
  if reSearch todayRx tl then some (.fromNow today)
  else if reSearch tomorrowRx tl then some (.fromNow (today + 1))
  else if reSearch nextWeekRx tl then some (.fromNow (today + 7))
  else
    match firstWeekdayFound text with
    | some dn => some (.fromNow (today + daysAhead dn (today % 7)))
    | none =>
      match isoScan false text.data with
      | some s => some (.literal s)
      | none => none

/-! ### Conversation state (the `conversation_state` dict)

Persisted states are produced either by the slot-filling add flow
(`intent`/`title`/`priority`/`category`/`due_date`/`description` keys) or
by the list flow (`task_mapping`/`task_count`/`mapping_created_at` keys).
An absent dict key is `none`; a present-but-empty string is `some ""`
(Python truthiness distinguishes the two).  JSON round-trips may turn the
integer keys of `task_mapping` into strings, which `JKey` models. -/

inductive JKey where
  | int (i : Int) : JKey
  | str (s : String) : JKey
deriving DecidableEq, Repr

structure ConvState where
  intent : Option String := none
  title : Option String := none
  priority : Option String := none
  category : Option String := none
  due_date : Option ParsedDate := none
  description : Option String := none
  task_mapping : List (JKey × Int) := []
  task_count : Option Int := none
  mapping_created_at : Option String := none
deriving DecidableEq, Repr

/-- Python `int(key)` during the defensive key coercion. -/
def coerceKey : JKey → Option Int
  | .int i => some i
  | .str s => pyParseInt s

/-- CPython dict insertion: replace in place or append. -/
def dictInsert (m : List (Int × Int)) (k : Int) (v : Int) : List (Int × Int) :=
  if m.any (fun p => p.1 = k) then m.map (fun p => if p.1 = k then (k, v) else p)
  else m ++ [(k, v)]

/-- The `for key, value in task_mapping_raw.items(): try:
task_mapping[int(key)] = value except: pass` loop. -/
def coerceMapping (raw : List (JKey × Int)) : List (Int × Int) :=
  raw.foldl (fun acc p =>
    match coerceKey p.1 with
    | some k => dictInsert acc k p.2
    | none => acc) []

/-- Python `dict.get`. -/
def dictGet (m : List (Int × Int)) (k : Int) : Option Int :=
  (m.find? (fun p => p.1 = k)).map (fun p => p.2)

/-- Python truthiness of an optional string value. -/
def strTruthy : Option String → Bool
  | some s => s ≠ ""
  | none => false

/-- `current_state and current_state.get("intent") == "adding_task"`. -/
def stateIsAdding (st : Option ConvState) : Bool :=
  match st with
  | some s => s.intent = some "adding_task"
  | none => false

/-! ### Scanner helpers for the capturing regexes

The capturing patterns of `_extract_task_info` and
`_resolve_task_reference` are embedded as leftmost-match scanners:
`scanPositions` tries each start position in order (tracking the
word-status of the previous character for `\b`), and each
pattern-at-position function follows the Python engine's backtracking
order (greedy `\s*`/`\s+` runs, option-present-first `(?:…)?`, lazy
`(.+?)` shortest-first).  Case-insensitive searches compare through
`pyLowerChar` and return the original-case slice, as `re.IGNORECASE`
does. -/

def listStartsWithCI : List Char → List Char → Bool
  | [], _ => true
  | _ :: _, [] => false
  | w :: ws, c :: cs => pyLowerChar w = pyLowerChar c && listStartsWithCI ws cs

/-- Consume a case-insensitive literal, returning the rest. -/
def matchLitCI (w : List Char) (s : List Char) : Option (List Char) :=
  if listStartsWithCI w s then some (s.drop w.length) else none

/-- Consume an exact literal, returning the rest. -/
def matchLitEx (w : List Char) (s : List Char) : Option (List Char) :=
  if listStartsWith w s then some (s.drop w.length) else none

/-- Leftmost match: try each start position in order, tracking `\b`
word-status of the previous character. -/
def scanPositions {α : Type} (f : Bool → List Char → Option α) :
    Bool → List Char → Option α
  | pw, [] => f pw []
  | pw, c :: rest =>
    match f pw (c :: rest) with
    | some x => some x
    | none => scanPositions f (isWordChar c) rest

/-- `\s*[:\-]` after a structured-field label. -/
def afterLabelSep (s : List Char) : Option (List Char) :=
  match s.dropWhile pyIsSpace with
  | ':' :: rest => some rest
  | '-' :: rest => some rest
  | _ => none

/-- `,\s*(?:K…)` / `\n` / `$` terminator of a structured-field value. -/
def structTermAt (terms : List String) (rest : List Char) : Bool :=
  match rest with
  | [] => true
  | '\n' :: _ => true
  | ',' :: r => terms.any (fun t => listStartsWithCI t.data (r.dropWhile pyIsSpace))
  | _ => false

/-- `\s*(.+?)(?:\n|$|,\s*(?:K…))`: greedy whitespace, then the shortest
nonempty run of non-newline characters whose remainder starts with a
terminator. -/
def lazyGroupAfterWs (terms : List String) (s : List Char) : Option (List Char) :=
  let maxWs := (s.takeWhile pyIsSpace).length
  ((List.range (maxWs + 1)).map (fun i => maxWs - i)).findSome? (fun wsn =>
    let body := s.drop wsn
    ((List.range body.length).map (fun j => j + 1)).findSome? (fun k =>
      let g := body.take k
      if g.all (fun c => c ≠ '\n') ∧ structTermAt terms (body.drop k) then some g
      else none))

/-! ### `_extract_task_info` (chat_service.py lines 1070–1190) -/

/-- `(?:task\s+)?title\s*[:\-]\s*(.+?)(?:\n|$|,\s*(?:due|priority|category))`
at one position (the optional `task ` prefix is preferred, as the engine
does). -/
def titleStructuredHere (s : List Char) : Option (List Char) :=
  let core : List Char → Option (List Char) := fun u =>
    match matchLitCI "title".data u with
    | some r =>
      match afterLabelSep r with
      | some r2 => lazyGroupAfterWs ["due", "priority", "category"] r2
      | none => none
    | none => none
  let withTask : Option (List Char) :=
    match matchLitCI "task".data s with
    | some r =>
      match r with
      | c :: _ => if pyIsSpace c then core (r.dropWhile pyIsSpace) else none
      | [] => none
    | none => none
  match withTask with
  | some g => some g
  | none => core s

/-- The structured title field, `group(1).strip()`. -/
def extractTitleStructured (msg : String) : Option String :=
  (scanPositions (fun _ s => titleStructuredHere s) false msg.data).map
    (fun g => ⟨pyStripList g⟩)

/-- `(.+?)(?:\s*$)`: the shortest nonempty non-newline prefix whose
remainder is all whitespace. -/
def lazyGroupToEnd (s : List Char) : Option (List Char) :=
  ((List.range s.length).map (fun j => j + 1)).findSome? (fun k =>
    let g := s.take k
    if g.all (fun c => c ≠ '\n') ∧ (s.drop k).all pyIsSpace then some g else none)

/-- One alternative of an Urdu verb tail such as `XXX\s+YYY` (a sequence
of literals separated by `\s+`). -/
def altSeqAt : List String → List Char → Bool
  | [], _ => true
  | [p], s => listStartsWith p.data s
  | p :: rest, s =>
    match matchLitEx p.data s with
    | some r =>
      match r with
      | c :: _ => pyIsSpace c && altSeqAt rest (r.dropWhile pyIsSpace)
      | [] => false
    | none => false

/-- `\s+(?:alt|…)` after a lazy group. -/
def wsThenAlts (alts : List (List String)) (rest : List Char) : Bool :=
  match rest with
  | c :: _ =>
    pyIsSpace c &&
    (let maxWs := (rest.takeWhile pyIsSpace).length
     (List.range maxWs).any (fun i => alts.any (fun a => altSeqAt a (rest.drop (maxWs - i)))))
  | [] => false

/-- `(.+?)\s+(?:alt|…)`: shortest nonempty non-newline group followed by
whitespace and one of the alternatives. -/
def lazyGroupBeforeAlts (alts : List (List String)) (s : List Char) : Option (List Char) :=
  ((List.range s.length).map (fun j => j + 1)).findSome? (fun k =>
    let g := s.take k
    if g.all (fun c => c ≠ '\n') ∧ wsThenAlts alts (s.drop k) then some g else none)

/-- An anchor sequence (literals separated by `\s+`) followed by a
required trailing `\s+`, returning the rest. -/
def anchorSeq : List String → List Char → Option (List Char)
  | [], s => some s
  | p :: rest, s =>
    match matchLitEx p.data s with
    | some r =>
      match r with
      | c :: _ => if pyIsSpace c then anchorSeq rest (r.dropWhile pyIsSpace) else none
      | [] => none
    | none => none

/-- The words stripped from an Urdu title candidate by
`re.sub(r'\s*(?:…)\s*', ' ', title)`. -/
def urduTempWords : List String :=
  ["کل", "آج", "اگلے", "ہفتے", "میرا", "میرے", "مجھے"]

/-- `\s*(?:W…)\s*` at one position, returning the rest after the match. -/
def urduTempAt (s : List Char) : Option (List Char) :=
  let ws1 := s.dropWhile pyIsSpace
  match urduTempWords.findSome? (fun w => matchLitEx w.data ws1) with
  | some r => some (r.dropWhile pyIsSpace)
  | none => none

/-- `re.sub(r'\s*(?:W…)\s*', ' ', t)` — fuelled left-to-right replace. -/
def subUrduTemporal : Nat → List Char → List Char
  | 0, s => s
  | _ + 1, [] => []
  | fuel + 1, c :: rest =>
    match urduTempAt (c :: rest) with
    | some r => ' ' :: subUrduTemporal fuel r
    | none => c :: subUrduTemporal fuel rest

/-- The cleanup applied to every Urdu title candidate. -/
def cleanUrduTitle (t : List Char) : List Char :=
  pyStripList (subUrduTemporal (t.length + 1) t)

/-- The six `urdu_title_patterns`, each producing `group(1)` at the
leftmost matching position. -/
def urduTitleCandidates (msg : List Char) : List (Option (List Char)) :=
  [ scanPositions (fun _ s =>
      match anchorSeq ["نام", "ہے"] s with
      | some r => lazyGroupToEnd r
      | none => none) false msg,
    scanPositions (fun _ s =>
      match anchorSeq ["کام", "کا", "نام", "ہے"] s with
      | some r => lazyGroupToEnd r
      | none => none) false msg,
    scanPositions (fun _ s =>
      match (match matchLitEx "نیا".data s with
             | some r => some r
             | none => matchLitEx "نئی".data s) with
      | some r =>
        (match r with
         | c :: _ =>
           if pyIsSpace c then
             match anchorSeq ["کام"] (r.dropWhile pyIsSpace) with
             | some r2 => lazyGroupToEnd r2
             | none => none
           else none
         | [] => none)
      | none => none) false msg,
    scanPositions (fun _ s =>
      match anchorSeq ["مجھے"] s with
      | some r =>
        lazyGroupBeforeAlts [["ہے"], ["بنانی", "ہے"], ["کرنی", "ہے"], ["کرنا", "ہے"]] r
      | none => none) false msg,
    scanPositions (fun _ s =>
      match anchorSeq ["میں"] s with
      | some r => lazyGroupBeforeAlts [["بناؤں"], ["کروں"], ["کرنا"]] r
      | none => none) false msg,
    scanPositions (fun _ s =>
      lazyGroupBeforeAlts [["بنانی", "ہے"], ["کرنی", "ہے"], ["کرنا", "ہے"]] s) false msg ]

/-- The Urdu title loop: first pattern whose cleaned candidate is longer
than two characters. -/
def extractTitleUrdu (msg : String) : Option String :=
  (urduTitleCandidates msg.data).findSome? (fun cand =>
    match cand with
    | some g =>
      let t := cleanUrduTitle (pyStripList g)
      if t ≠ [] ∧ t.length > 2 then some ⟨t⟩ else none
    | none => none)

/-- Keyword list terminating an English title group. -/
def engTermKeywords : List String :=
  ["tomorrow", "today", "next week", "yesterday", "with", "in", "for", "by",
   "on", "at", "high", "medium", "low", "personal", "work", "shopping"]

/-- `(?:\s+(?:K…)|\s*$)` — the English title terminator. -/
def engTermAt (rest : List Char) : Bool :=
  (match rest with
   | c :: _ =>
     pyIsSpace c &&
     (let maxWs := (rest.takeWhile pyIsSpace).length
      (List.range maxWs).any (fun i =>
        engTermKeywords.any (fun k => listStartsWithCI k.data (rest.drop (maxWs - i)))))
   | [] => false) ||
  rest.all pyIsSpace

/-- `(.+?)` before the English terminator. -/
def lazyGroupEng (s : List Char) : Option (List Char) :=
  ((List.range s.length).map (fun j => j + 1)).findSome? (fun k =>
    let g := s.take k
    if g.all (fun c => c ≠ '\n') ∧ engTermAt (s.drop k) then some g else none)

/-- English title pattern 1 at one position:
`(?:add|create|new)\s+(?:task|kaam)\s+(?:to|for)?\s*(.+?)(?:…)`. -/
def engTitleP1At (s : List Char) : Option (List Char) :=
  match ["add", "create", "new"].findSome? (fun v => matchLitCI v.data s) with
  | some r =>
    (match r with
     | c :: _ =>
       if pyIsSpace c then
         let r2 := r.dropWhile pyIsSpace
         match ["task", "kaam"].findSome? (fun v => matchLitCI v.data r2) with
         | some r3 =>
           (match r3 with
            | c2 :: _ =>
              if pyIsSpace c2 then
                let r4 := r3.dropWhile pyIsSpace
                let r5 :=
                  match ["to", "for"].findSome? (fun v => matchLitCI v.data r4) with
                  | some r5' => r5'.dropWhile pyIsSpace
                  | none => r4
                lazyGroupEng r5
              else none
            | [] => none)
         | none => none
       else none
     | [] => none)
  | none => none

/-- English title pattern 2 at one position:
`task\s+(?:add|banao)\s+(?:karo?)?\s*[:-]?\s*(.+?)(?:…)`. -/
def engTitleP2At (s : List Char) : Option (List Char) :=
  match matchLitCI "task".data s with
  | some r =>
    (match r with
     | c :: _ =>
       if pyIsSpace c then
         let r2 := r.dropWhile pyIsSpace
         match ["add", "banao"].findSome? (fun v => matchLitCI v.data r2) with
         | some r3 =>
           (match r3 with
            | c2 :: _ =>
              if pyIsSpace c2 then
                let r4 := r3.dropWhile pyIsSpace
                let r5 :=
                  match matchLitCI "karo".data r4 with
                  | some r5' => r5'
                  | none =>
                    match matchLitCI "kar".data r4 with
                    | some r5' => r5'
                    | none => r4
                let r6 := r5.dropWhile pyIsSpace
                let r7 := match r6 with
                  | ':' :: t => t
                  | '-' :: t => t
                  | _ => r6
                lazyGroupEng (r7.dropWhile pyIsSpace)
              else none
            | [] => none)
         | none => none
       else none
     | [] => none)
  | none => none

/-- One alternative of the English title cleanup keyword list
`(please|plz|kar\s*do|kar\s*dein|tomorrow|today|with|in)`. -/
def engCleanKeywordAt (s : List Char) : Bool :=
  listStartsWithCI "please".data s || listStartsWithCI "plz".data s ||
  (match matchLitCI "kar".data s with
   | some r =>
     let r2 := r.dropWhile pyIsSpace
     listStartsWithCI "do".data r2 || listStartsWithCI "dein".data r2
   | none => false) ||
  listStartsWithCI "tomorrow".data s || listStartsWithCI "today".data s ||
  listStartsWithCI "with".data s || listStartsWithCI "in".data s

/-- Cut a candidate at the first position of `p` and strip
(`re.sub(r'…​.*$', '', t)` followed by `strip()`). -/
def cutAtFirst (p : List Char → Bool) (t : List Char) : List Char :=
  match (List.range t.length).find? (fun i => p (t.drop i)) with
  | some i => t.take i
  | none => t

/-- `\s+(please|plz|…)` — start of the English cleanup tail. -/
def engCleanTailAt (s : List Char) : Bool :=
  match s with
  | c :: _ =>
    pyIsSpace c &&
    (let maxWs := (s.takeWhile pyIsSpace).length
     (List.range maxWs).any (fun i => engCleanKeywordAt (s.drop (maxWs - i))))
  | [] => false

/-- `re.sub(r'\s+(please|…).*$', '', t, re.IGNORECASE).strip()`. -/
def engCleanTitle (t : List Char) : List Char :=
  pyStripList (cutAtFirst engCleanTailAt t)

/-- The English title loop: each pattern's candidate is stripped and
cleaned; the first nonempty result wins. -/
def extractTitleEnglish (msg : String) : Option String :=
  [ scanPositions (fun _ s => engTitleP1At s) false msg.data,
    scanPositions (fun _ s => engTitleP2At s) false msg.data ].findSome?
    (fun cand =>
      match cand with
      | some g =>
        let t := engCleanTitle (pyStripList g)
        if t ≠ [] then some (⟨t⟩ : String) else none
      | none => none)

/-- `(?:due\s+date|priority|category)\s*[:\-]` at one position (the
whole-message cleanup's label). -/
def fieldLabelAt (s : List Char) : Bool :=
  (match (match matchLitCI "due".data s with
          | some r =>
            (match r with
             | c :: _ =>
               if pyIsSpace c then matchLitCI "date".data (r.dropWhile pyIsSpace) else none
             | [] => none)
          | none => none) with
   | some r2 => (afterLabelSep r2).isSome
   | none => false) ||
  (match matchLitCI "priority".data s with
   | some r => (afterLabelSep r).isSome
   | none => false) ||
  (match matchLitCI "category".data s with
   | some r => (afterLabelSep r).isSome
   | none => false)

/-- The Urdu words at which the whole-message fallback truncates. -/
def urduCutWords : List String :=
  ["آج", "کل", "اگلے", "ہفتے", "پکانی", "ہے", "کرنا", "کرنی", "مجھے",
   "میرا", "میرے", "ٹاسک", "میں", "ڈالو"]

/-- The whole-message title fallback: cut structured labels and Urdu
temporal words, strip, and require more than two characters. -/
def wholeMessageTitle (msg : String) : Option String :=
  let c1 := cutAtFirst fieldLabelAt msg.data
  let c2 := cutAtFirst (fun s => urduCutWords.any (fun w => listStartsWith w.data s)) c1
  let t := pyStripList c2
  if t ≠ [] ∧ t.length > 2 then some ⟨t⟩ else none

/-- `priority\s*[:\-]\s*(high|medium|low)` at one position, lowered. -/
def priorityStructuredHere (s : List Char) : Option String :=
  match matchLitCI "priority".data s with
  | some r =>
    match afterLabelSep r with
    | some r2 =>
      let r3 := r2.dropWhile pyIsSpace
      if listStartsWithCI "high".data r3 then some "high"
      else if listStartsWithCI "medium".data r3 then some "medium"
      else if listStartsWithCI "low".data r3 then some "low"
      else none
    | none => none
  | none => none

/-- The structured priority field. -/
def extractPriorityStructured (msg : String) : Option String :=
  scanPositions (fun _ s => priorityStructuredHere s) false msg.data

/-- `\bW\b` at one position (case-insensitive, `W` starting and ending
with a word character). -/
def wordHereCI (w : List Char) (pw : Bool) (s : List Char) : Bool :=
  !pw &&
  (match matchLitCI w s with
   | some r => (match r with | [] => true | c :: _ => !isWordChar c)
   | none => false)

/-- Fallback priority pattern list, in source order. -/
def priorityFallback (msg : String) : Option String :=
  match scanPositions (fun pw s =>
      if wordHereCI "high".data pw s then some "high"
      else if wordHereCI "medium".data pw s then some "medium"
      else if wordHereCI "low".data pw s then some "low"
      else none) false msg.data with
  | some p => some p
  | none =>
    match scanPositions (fun _ s =>
        if listStartsWith "اعلیٰ".data s then some "high"
        else if listStartsWith "بلند".data s then some "high"
        else if listStartsWith "زیادہ".data s then some "high"
        else none) false msg.data with
    | some p => some p
    | none =>
      match scanPositions (fun _ s =>
          if listStartsWith "درمیانہ".data s then some "medium"
          else if listStartsWith "عام".data s then some "medium"
          else none) false msg.data with
      | some p => some p
      | none =>
        scanPositions (fun _ s =>
            if listStartsWith "کم".data s then some "low"
            else if listStartsWith "نیچے".data s then some "low"
            else none) false msg.data

/-- Priority extraction: structured field first, else the fallback
vocabulary. -/
def extractPriority (msg : String) : Option String :=
  match extractPriorityStructured msg with
  | some p => some p
  | none => priorityFallback msg

/-- `category\s*[:\-]\s*(\w+)` at one position, lowered. -/
def categoryStructuredHere (s : List Char) : Option String :=
  match matchLitCI "category".data s with
  | some r =>
    match afterLabelSep r with
    | some r2 =>
      let r3 := r2.dropWhile pyIsSpace
      let wrun := r3.takeWhile isWordChar
      if wrun ≠ [] then some ⟨wrun.map pyLowerChar⟩ else none
    | none => none
  | none => none

/-- The structured category field. -/
def extractCategoryStructured (msg : String) : Option String :=
  scanPositions (fun _ s => categoryStructuredHere s) false msg.data

/-- Fallback category pattern list, in source order. -/
def categoryFallback (msg : String) : Option String :=
  match scanPositions (fun pw s =>
      if wordHereCI "personal".data pw s then some "personal"
      else if wordHereCI "work".data pw s then some "work"
      else if wordHereCI "shopping".data pw s then some "shopping"
      else none) false msg.data with
  | some c => some c
  | none =>
    match scanPositions (fun _ s =>
        if listStartsWith "ذاتی".data s then some "personal"
        else if listStartsWith "پرسنل".data s then some "personal"
        else none) false msg.data with
    | some c => some c
    | none =>
      match scanPositions (fun _ s =>
          if listStartsWith "کام".data s then some "work"
          else if listStartsWith "ورک".data s then some "work"
          else if listStartsWith "دفتر".data s then some "work"
          else none) false msg.data with
      | some c => some c
      | none =>
        scanPositions (fun _ s =>
            if listStartsWith "خریداری".data s then some "shopping"
            else if listStartsWith "شاپنگ".data s then some "shopping"
            else if listStartsWith "بازار".data s then some "shopping"
            else none) false msg.data

/-- Category extraction: structured field first, else the fallback
vocabulary. -/
def extractCategory (msg : String) : Option String :=
  match extractCategoryStructured msg with
  | some c => some c
  | none => categoryFallback msg

/-- `due\s+date\s*[:\-]\s*(.+?)(?:\n|$|,\s*(?:priority|category))` at one
position. -/
def dueStructuredHere (s : List Char) : Option (List Char) :=
  match matchLitCI "due".data s with
  | some r =>
    (match r with
     | c :: _ =>
       if pyIsSpace c then
         match matchLitCI "date".data (r.dropWhile pyIsSpace) with
         | some r2 =>
           match afterLabelSep r2 with
           | some r3 => lazyGroupAfterWs ["priority", "category"] r3
           | none => none
         | none => none
       else none
     | [] => none)
  | none => none

/-- The structured due-date text, `group(1).strip()`. -/
def extractDueStructured (msg : String) : Option String :=
  (scanPositions (fun _ s => dueStructuredHere s) false msg.data).map
    (fun g => (⟨pyStripList g⟩ : String))

/-- Due-date extraction: parse the structured field text when present,
else the whole message. -/
def extractDueDate (msg : String) (today : Nat) : Option ParsedDate :=
  match extractDueStructured msg with
  | some txt => parseNaturalDate txt today
  | none => parseNaturalDate msg today

/-- The title dataflow of `_extract_task_info` (only entered when the
carried title is absent or empty): structured field, Urdu templates,
English templates (guarded by the `"title" not in info` presence check),
then whole-message fallback during slot filling.  Every branch writes the
title slot only, so the block is expressed as the new title value. -/
def computeTitle (message : String) (current_state : Option ConvState)
    (info : ConvState) : Option String :=
  if !strTruthy info.title then
    match extractTitleStructured message with
    | some t => some t
    | none =>
      let t1 : Option String :=
        match extractTitleUrdu message with
        | some t => some t
        | none => info.title
      let t2 : Option String :=
        if t1 = none then
          match extractTitleEnglish message with
          | some t => some t
          | none => t1
        else t1
      if t2 = none ∧ stateIsAdding current_state then
        match wholeMessageTitle message with
        | some t => some t
        | none => t2
      else t2
  else info.title

/-- The title block of `_extract_task_info`. -/
def applyTitlePhase (message : String) (current_state : Option ConvState)
    (info : ConvState) : ConvState :=
  { info with title := computeTitle message current_state info }

/-- The priority block of `_extract_task_info`. -/
def applyPriorityPhase (message : String) (info : ConvState) : ConvState :=
  match extractPriority message with
  | some p => { info with priority := some p }
  | none => info

/-- The category block of `_extract_task_info`. -/
def applyCategoryPhase (message : String) (info : ConvState) : ConvState :=
  match extractCategory message with
  | some c => { info with category := some c }
  | none => info

/-- The due-date block of `_extract_task_info`. -/
def applyDuePhase (message : String) (today : Nat) (info : ConvState) : ConvState :=
  match extractDueDate message today with
  | some d => { info with due_date := some d }
  | none => info

/-- `ChatService._extract_task_info`: copy the prior state and run the
four slot blocks in source order. -/
def extractTaskInfo (message : String) (current_state : Option ConvState)
    (today : Nat) : ConvState :=
  applyDuePhase message today
    (applyCategoryPhase message
      (applyPriorityPhase message
        (applyTitlePhase message current_state (current_state.getD {}))))

/-- `ChatService._is_task_info_complete`: a truthy title. -/
def isTaskInfoComplete (info : ConvState) : Bool :=
  strTruthy info.title

/-- Example mid-slot-filling state with a filled priority. -/
def examplePriorHigh : ConvState :=
  { intent := some "adding_task", title := some "x", priority := some "high" }

/-- Example mid-slot-filling state with filled priority and category. -/
def examplePriorHighOld : ConvState :=
  { intent := some "adding_task", title := some "x",
    priority := some "high", category := some "old" }

/-! ### `_resolve_task_reference` and `_search_task_by_title`
(chat_service.py lines 776–914) -/

/-- A persisted task record (the columns the embedded code consults). -/
structure TaskRow where
  id : Int
  user_id : String
  title : String
  description : Option String := none
  completed : Bool := false
  due_date : Option Nat := none
  priority : String := "medium"
  category : Option String := none
  created_at : Nat := 0
  updated_at : Nat := 0
  completed_at : Option Nat := none
deriving DecidableEq, Repr

/-- `\b(?:task|id)\s*#?(\d+)\b` at one position: the alternation's word
boundary, optional whitespace, optional `#`, a maximal digit run, and the
closing boundary. -/
def taskNumberHere (pw : Bool) (s : List Char) : Option Nat :=
  if pw then none
  else
    match (match matchLitCI "task".data s with
           | some r => some r
           | none => matchLitCI "id".data s) with
    | some r =>
      let r2 := r.dropWhile pyIsSpace
      let r3 := match r2 with
        | '#' :: t => t
        | _ => r2
      let ds := r3.takeWhile Char.isDigit
      let bAfter : Bool := match r3.drop ds.length with
        | [] => true
        | c :: _ => !isWordChar c
      if ds ≠ [] ∧ bAfter = true then some (digitsToNat ds)
      else none
    | none => none

/-- `number = int(number_match.group(1)) if number_match else None`. -/
def extractTaskNumber (msg : String) : Option Nat :=
  scanPositions taskNumberHere false msg.data

/-- The character class `[a-zA-Z0-9\s]` of the title-reference group. -/
def isTitleClass (c : Char) : Bool :=
  c.isAlpha || c.isDigit || pyIsSpace c

/-- `\s+(?:task|as)` — the pattern-1 title terminator. -/
def titleRefTerm (rest : List Char) : Bool :=
  match rest with
  | c :: _ =>
    pyIsSpace c &&
    (let r := rest.dropWhile pyIsSpace
     listStartsWithCI "task".data r || listStartsWithCI "as".data r)
  | [] => false

/-- `([a-zA-Z][a-zA-Z0-9\s]+?)` before the pattern-1 terminator. -/
def titleRefGroup1 (s : List Char) : Option (List Char) :=
  match s with
  | c :: rest =>
    if c.isAlpha then
      ((List.range rest.length).map (fun j => j + 1)).findSome? (fun k =>
        let g := rest.take k
        if g.all isTitleClass ∧ titleRefTerm (rest.drop k) then some (c :: g) else none)
    else none
  | [] => none

/-- Resolver title pattern 1 at one position:
`(?:complete|delete|mark|finish)\s+(?:the\s+)?([a-zA-Z][a-zA-Z0-9\s]+?)\s+(?:task|as)`
(the optional `the ` is preferred, falling back without it). -/
def titleRefP1At (s : List Char) : Option (List Char) :=
  match ["complete", "delete", "mark", "finish"].findSome?
      (fun v => matchLitCI v.data s) with
  | some r =>
    (match r with
     | c :: _ =>
       if pyIsSpace c then
         let r2 := r.dropWhile pyIsSpace
         let withThe : Option (List Char) :=
           match matchLitCI "the".data r2 with
           | some r3 =>
             (match r3 with
              | c2 :: _ =>
                if pyIsSpace c2 then titleRefGroup1 (r3.dropWhile pyIsSpace) else none
              | [] => none)
           | none => none
         match withThe with
         | some g => some g
         | none => titleRefGroup1 r2
       else none
     | [] => none)
  | none => none

/-- Resolver title pattern 2 at one position:
`(?:complete|delete|mark|finish)\s+([a-zA-Z][a-zA-Z0-9\s]+)$`. -/
def titleRefP2At (s : List Char) : Option (List Char) :=
  match ["complete", "delete", "mark", "finish"].findSome?
      (fun v => matchLitCI v.data s) with
  | some r =>
    (match r with
     | c :: _ =>
       if pyIsSpace c then
         (match r.dropWhile pyIsSpace with
          | c2 :: rest2 =>
            if c2.isAlpha ∧ rest2 ≠ [] ∧ rest2.all isTitleClass then
              some (c2 :: rest2)
            else none
          | [] => none)
       else none
     | [] => none)
  | none => none

/-- The resolver's title extraction loop, `group(1).strip()` of the first
matching pattern. -/
def extractTitleRef (msg : String) : Option String :=
  match scanPositions (fun _ s => titleRefP1At s) false msg.data with
  | some g => some ⟨pyStripList g⟩
  | none =>
    match scanPositions (fun _ s => titleRefP2At s) false msg.data with
    | some g => some ⟨pyStripList g⟩
    | none => none

/-- `ChatService._search_task_by_title`: case-insensitive partial match
scoped to the user, at most five rows in store order; a single match
wins, otherwise an exact (case-insensitive) title match, otherwise the
first row.  (`ilike` wildcard characters inside the query are not
modelled.) -/
def searchTaskByTitle (user_id : String) (title_query : String)
    (tasks : List TaskRow) : Option Int :=
  let ms := (tasks.filter (fun t =>
    t.user_id = user_id ∧
    containsSubstr (pyLower t.title).data (pyLower title_query).data)).take 5
  match ms with
  | [] => none
  | [t] => some t.id
  | t0 :: _ :: _ =>
    match ms.find? (fun t => pyLower t.title = pyLower title_query) with
    | some t => some t.id
    | none => some t0.id

/-- `task_mapping` read from the prior state (`{}` when absent) after the
defensive key coercion. -/
def stateMappingCoerced (current_state : Option ConvState) : List (Int × Int) :=
  coerceMapping (match current_state with
    | some st => st.task_mapping
    | none => [])

/-- `current_state.get('task_count', 0) if current_state else 0`. -/
def stateTaskCount (current_state : Option ConvState) : Int :=
  match current_state with
  | some st => st.task_count.getD 0
  | none => 0

/-- `ChatService._resolve_task_reference`.  `some 0` results of a lookup
or search fall through the `if task_id:` truthiness checks exactly as in
the source. -/
def resolveTaskReference (user_message user_id : String)
    (current_state : Option ConvState) (tasks : List TaskRow) : Option Int :=
  let number : Option Nat := extractTaskNumber user_message
  let numTruthy : Bool := match number with
    | some k => k != 0
    | none => false
  let title : Option String := if numTruthy then none else extractTitleRef user_message
  let task_mapping : List (Int × Int) := stateMappingCoerced current_state
  let task_count : Int := stateTaskCount current_state
  let p1 : Option Int :=
    match number with
    | some n =>
      if n ≠ 0 ∧ task_mapping ≠ [] ∧ 1 ≤ n ∧ (n : Int) ≤ task_count then
        match dictGet task_mapping (n : Int) with
        | some v => if v ≠ 0 then some v else none
        | none => none
      else none
    | none => none
  match p1 with
  | some v => some v
  | none =>
    let p2 : Option Int :=
      match title with
      | some t =>
        match searchTaskByTitle user_id t tasks with
        | some v => if v ≠ 0 then some v else none
        | none => none
      | none => none
    match p2 with
    | some v => some v
    | none =>
      match number with
      | some n =>
        if n ≠ 0 ∧ (task_mapping = [] ∨ (n : Int) > task_count) then some (n : Int)
        else none
      | none => none

/-! ### `_parse_and_execute_tools`, `_call_openrouter_simple` and the
`send_message` pipeline (chat_service.py lines 79–191, 368–425, 512–774)

`call_tool` and the completion endpoint are external collaborators; they
are embedded as oracles inside `ChatEnv`.  An `Except.error` from the
`callTool` oracle models a raised exception (caught by the per-branch
`try/except` of the source); an `Except.error` from the completion oracle
models the `openai` client raising. -/

/-- A task dict as returned by the list tool (the orchestrator consults
only `task.get('id')`). -/
structure TaskRec where
  id : Option String := none
deriving DecidableEq, Repr

/-- A tool-result dict (the fields the orchestrator consults). -/
structure ToolResult where
  success : Bool := false
  tasks : List TaskRec := []
  count : Nat := 0
deriving DecidableEq, Repr

/-- Arguments passed to `call_tool`. -/
structure ToolArgs where
  user_id : String := ""
  title : Option String := none
  description : Option String := none
  due_date : Option ParsedDate := none
  priority : Option String := none
  category : Option String := none
  status : Option String := none
  limit : Option Nat := none
  task_id : Option String := none
deriving DecidableEq, Repr

/-- One entry of the `tool_calls` metadata list. -/
structure ToolCallRec where
  tool : String
  success : Bool
  result : Option ToolResult := none
  error : Option String := none
deriving DecidableEq, Repr

/-- The collaborators and ambient inputs of one chat turn. -/
structure ChatEnv where
  callTool : String → ToolArgs → Except String ToolResult
  tasks : List TaskRow
  completion : Except String String
  today : Nat
  nowIso : String

/-- Python `str.capitalize()`. -/
def pyCapitalize (s : String) : String :=
  match s.data with
  | [] => ""
  | c :: rest => ⟨c.toUpper :: rest.map pyLowerChar⟩

/-- `task_info['due_date'][:10]`.  The calendar rendering of a relative
day index is `datetime` library code outside this embedding; the rendered
text feeds only the collaborator call. -/
def isoFirst10 : ParsedDate → String
  | .fromNow d => toString d
  | .literal ymd => ⟨ymd.data.take 10⟩

/-- The auto-generated description of the add flow (lines 576–588). -/
def buildDescription (info : ConvState) : Option String :=
  let parts : List String :=
    (match info.priority with
     | some p => if p ≠ "" then ["Priority: " ++ pyCapitalize p] else []
     | none => []) ++
    (match info.category with
     | some c => if c ≠ "" then ["Category: " ++ pyCapitalize c] else []
     | none => []) ++
    (match info.due_date with
     | some d => ["Due: " ++ isoFirst10 d]
     | none => [])
  if parts ≠ [] then some (String.intercalate " | " parts) else none

/-- The `for position, task in enumerate(tasks, 1)` mapping build of the
list branch; a non-numeric id makes `int(task_id)` raise, surfacing as an
`Except.error` handled by the branch's `except`. -/
def buildTaskMappingAux : Nat → List TaskRec → Except String (List (JKey × Int))
  | _, [] => .ok []
  | pos, t :: rest =>
    match t.id with
    | some s =>
      if s ≠ "" then
        match pyParseInt s with
        | some v =>
          (match buildTaskMappingAux (pos + 1) rest with
           | .ok m => .ok ((JKey.int (pos : Int), v) :: m)
           | .error e => .error e)
        | none => .error "invalid literal for int() with base 10"
      else buildTaskMappingAux (pos + 1) rest
    | none => buildTaskMappingAux (pos + 1) rest

def buildTaskMapping (tasks : List TaskRec) : Except String (List (JKey × Int)) :=
  buildTaskMappingAux 1 tasks

def completeUnresolvedMsg : String :=
  "Could not identify which task to complete. Please list your tasks first or specify the task by name."

def deleteUnresolvedMsg : String :=
  "Could not identify which task to delete. Please list your tasks first or specify the task by name."

/-- `ChatService._parse_and_execute_tools`: detect the intent, give a
carried `adding_task` state precedence, and run the add / list /
complete / delete branch, returning the `tool_calls` metadata and the
state to persist on the saved assistant message. -/
def parseAndExecuteTools (env : ChatEnv) (user_id user_message : String)
    (current_state : Option ConvState) : List ToolCallRec × Option ConvState :=
  -- `intent = self._detect_intent(user_message)`, referenced by each branch
  if detectIntent user_message = some "adding_task" ∨ stateIsAdding current_state = true then
    let task_info0 := extractTaskInfo user_message current_state env.today
    let task_info := { task_info0 with intent := some "adding_task" }
    if isTaskInfoComplete task_info = true then
      let description :=
        if strTruthy task_info.description = true then task_info.description
        else buildDescription task_info
      match env.callTool "add_task"
          { user_id := user_id, title := task_info.title,
            description := description, due_date := task_info.due_date,
            priority := some (task_info.priority.getD "medium"),
            category := task_info.category } with
      | .ok r => ([{ tool := "add_task", success := r.success, result := some r }], none)
      | .error e => ([{ tool := "add_task", success := false, error := some e }], none)
    else ([], some task_info)
  else if detectIntent user_message = some "listing_tasks" then
    match env.callTool "list_tasks"
        { user_id := user_id, status := some "all", limit := some 100 } with
    | .ok r =>
      if r.success = true ∧ r.tasks ≠ [] then
        match buildTaskMapping r.tasks with
        | .ok m =>
          ([{ tool := "list_tasks", success := r.success, result := some r }],
           some { task_mapping := m, mapping_created_at := some env.nowIso,
                  task_count := some (r.tasks.length : Int) })
        | .error e => ([{ tool := "list_tasks", success := false, error := some e }], none)
      else
        ([{ tool := "list_tasks", success := r.success, result := some r }], none)
    | .error e => ([{ tool := "list_tasks", success := false, error := some e }], none)
  else if detectIntent user_message = some "completing_task" then
    match resolveTaskReference user_message user_id current_state env.tasks with
    | some t =>
      if t ≠ 0 then
        match env.callTool "complete_task"
            { user_id := user_id, task_id := some (toString t) } with
        | .ok r => ([{ tool := "complete_task", success := r.success, result := some r }],
                    current_state)
        | .error e => ([{ tool := "complete_task", success := false, error := some e }],
                       current_state)
      else ([{ tool := "complete_task", success := false,
               error := some completeUnresolvedMsg }], current_state)
    | none => ([{ tool := "complete_task", success := false,
                  error := some completeUnresolvedMsg }], current_state)
  else if detectIntent user_message = some "deleting_task" then
    match resolveTaskReference user_message user_id current_state env.tasks with
    | some t =>
      if t ≠ 0 then
        match env.callTool "delete_task"
            { user_id := user_id, task_id := some (toString t) } with
        | .ok r => ([{ tool := "delete_task", success := r.success, result := some r }],
                    current_state)
        | .error e => ([{ tool := "delete_task", success := false, error := some e }],
                       current_state)
      else ([{ tool := "delete_task", success := false,
               error := some deleteUnresolvedMsg }], current_state)
    | none => ([{ tool := "delete_task", success := false,
                  error := some deleteUnresolvedMsg }], current_state)
  else ([], none)

/-- A raised `fastapi.HTTPException`. -/
structure HttpError where
  status : Nat
  detail : String
deriving DecidableEq, Repr

/-- `ChatService._call_openrouter_simple`: the completion text, or a
raised `HTTPException(500, "AI service temporarily unavailable. Please
try again.")` when the completion collaborator fails. -/
def callOpenrouterSimple (completion : Except String String) : Except HttpError String :=
  match completion with
  | .ok t => .ok t
  | .error _ =>
    .error { status := 500,
             detail := "AI service temporarily unavailable. Please try again." }

/-- The observable outcome of one successful chat turn. -/
structure ChatTurn where
  response : String
  toolCalls : List ToolCallRec
  savedState : Option ConvState
deriving DecidableEq, Repr

/-- The `send_message` turn pipeline relevant to tool execution and reply
production: tools run first from the user message and prior state, then
the completion service is called; on success exactly one assistant
message is saved carrying the new state, and on completion failure the
`HTTPException` propagates and no assistant message is saved.
(Conversation lookup and message persistence are external collaborators
assumed to succeed.) -/
def sendMessage (env : ChatEnv) (user_id user_message : String)
    (prior_state : Option ConvState) : Except HttpError ChatTurn :=
  let tc := parseAndExecuteTools env user_id user_message prior_state
  match callOpenrouterSimple env.completion with
  | .ok text => .ok { response := text, toolCalls := tc.1, savedState := tc.2 }
  | .error e => .error e

/-- Oracle environments used by concrete evaluations. -/
def exampleEnvOk : ChatEnv :=
  { callTool := fun _ _ => .ok { success := true },
    tasks := [], completion := .ok "done", today := 0, nowIso := "t0" }

def exampleEnvEmptyList : ChatEnv :=
  { callTool := fun _ _ => .ok { success := true, tasks := [], count := 0 },
    tasks := [], completion := .ok "done", today := 0, nowIso := "t0" }

def exampleEnvDown : ChatEnv :=
  { callTool := fun _ _ => .ok { success := true },
    tasks := [], completion := .error "connection error", today := 0, nowIso := "t0" }

def exampleEnvCrudDown : ChatEnv :=
  { callTool := fun _ _ => .error "db down",
    tasks := [], completion := .ok "done", today := 0, nowIso := "t0" }

/-- A carried slot-filling state with no other fields. -/
def exampleAddingState : ConvState := { intent := some "adding_task" }

/-- A post-list state carrying a one-entry position mapping. -/
def exampleMappingState : ConvState :=
  { task_mapping := [(.int 1, 42)], task_count := some 1,
    mapping_created_at := some "t0" }

/-- An already-completed task owned by user "u1". -/
def exampleDoneTask : TaskRow :=
  { id := 5, user_id := "u1", title := "a", completed := true,
    completed_at := some 1, updated_at := 1 }

/-! ### `complete_task` (mcp_server/task_tools.py lines 269–356) -/

/-- The response dict of `complete_task` (the `task` payload fields are
inlined). -/
structure CompleteResult where
  success : Bool
  error : Option String := none
  code : Option String := none
  taskId : Option Int := none
  completed : Option Bool := none
  completed_at : Option Nat := none
  updated_at : Option Nat := none
  message : Option String := none
deriving DecidableEq, Repr

/-- `session.get(Task, task_id)` — primary-key lookup. -/
def storeGet (store : List TaskRow) (i : Int) : Option TaskRow :=
  store.find? (fun t => t.id = i)

/-- Committing an updated row. -/
def storeUpdate (store : List TaskRow) (t : TaskRow) : List TaskRow :=
  store.map (fun u => if u.id = t.id then t else u)

/-- `complete_task`: validation, ownership check, then unconditionally set
`completed = True` and both timestamps (no already-completed check).  The
database session is assumed not to throw. -/
def complete_task (user_id task_id : String) (store : List TaskRow) (now : Nat) :
    CompleteResult × List TaskRow :=
  if pyStrip user_id = "" then
    ({ success := false, error := some "User ID is required",
       code := some "VALIDATION_ERROR" }, store)
  else if pyStrip task_id = "" then
    ({ success := false, error := some "Task ID is required",
       code := some "VALIDATION_ERROR" }, store)
  else
    match pyParseInt task_id with
    | none =>
      ({ success := false, error := some "Invalid task ID format",
         code := some "VALIDATION_ERROR" }, store)
    | some tid =>
      match storeGet store tid with
      | none =>
        ({ success := false, error := some "Task not found",
           code := some "NOT_FOUND" }, store)
      | some task =>
        if task.user_id ≠ user_id then
          ({ success := false,
             error := some "Unauthorized: Task does not belong to this user",
             code := some "UNAUTHORIZED" }, store)
        else
          let task' := { task with completed := true, completed_at := some now,
                                   updated_at := now }
          ({ success := true, taskId := some task'.id, completed := some true,
             completed_at := some now, updated_at := some now,
             message := some "Task marked as completed" },
           storeUpdate store task')

end Todo

/-! ## Theorems -/

namespace Todo

/-- An Urdu-range character is never Python whitespace. -/
theorem urdu_not_space (c : Char) (h : isUrduChar c = true) : pyIsSpace c = false := by
  unfold isUrduChar at h
  simp only [Bool.and_eq_true, decide_eq_true_eq] at h
  rw [Bool.eq_false_iff]
  intro hc
  unfold pyIsSpace at hc
  simp only [Bool.or_eq_true, Bool.and_eq_true, decide_eq_true_eq] at hc
  omega

/-- A text whose Python `strip()` is empty consists of whitespace only. -/
theorem strip_empty_all_space {l : List Char} (h : pyStripList l = []) :
    ∀ c ∈ l, pyIsSpace c = true := by
  unfold pyStripList at h
  rw [List.reverse_eq_nil_iff, List.dropWhile_eq_nil_iff] at h
  intro c hc
  rcases List.mem_append.1 (by
      rw [List.takeWhile_append_dropWhile (p := pyIsSpace) (l := l)]; exact hc :
      c ∈ l.takeWhile pyIsSpace ++ l.dropWhile pyIsSpace) with h1 | h2
  · exact List.mem_takeWhile_imp h1
  · exact h c (by simpa using h2)

/-- The Urdu-character count never exceeds the non-whitespace count. -/
theorem urdu_le_nonspace (text : String) : urduCharCount text ≤ nonSpaceCount text :=
  List.countP_mono_left (fun c _ h => by rw [urdu_not_space c h]; rfl)

/-- C1: any message matching a delete-family pattern classifies as
`deleting_task` (never `listing_tasks` or `adding_task`), because the
delete family is evaluated first with return on first match; in
particular "delete the task" classifies as `deleting_task`. -/
theorem c1_delete_precedence :
    (∀ m : String, familyMatches deletePatterns (pyLower m) = true →
      detectIntent m = some "deleting_task") ∧
    detectIntent "delete the task" = some "deleting_task" := by
  refine ⟨fun m h => ?_, by decide⟩
  unfold detectIntent
  simp [h]

/-- C1 witness: the delete family matches "please delete my old task"
concretely, and the classifier therefore returns `deleting_task`. -/
theorem c1_delete_precedence_witness :
    detectIntent "please delete my old task" = some "deleting_task" :=
  c1_delete_precedence.1 "please delete my old task" (by decide)

/-- Values found in a weekday table are bounded by the table's bound. -/
theorem firstFound_lt_seven {table : List (String × Nat)}
    (hT : ∀ p ∈ table, p.2 < 7) {s : String} {w : Nat}
    (h : firstFound table s = some w) : w < 7 := by
  unfold firstFound at h
  cases hf : table.find? (fun p => containsSubstr s.data p.1.data) with
  | none => rw [hf] at h; simp at h
  | some p =>
    rw [hf] at h
    simp only [Option.map_some', Option.some.injEq] at h
    subst h
    exact hT p (List.mem_of_find?_eq_some hf)

/-- A matched weekday number is one of 0–6. -/
theorem firstWeekdayFound_lt_seven {text : String} {w : Nat}
    (h : firstWeekdayFound text = some w) : w < 7 := by
  unfold firstWeekdayFound at h
  cases hr : firstFound romanWeekdays (pyLower text) with
  | some dn =>
    rw [hr] at h
    cases h
    exact firstFound_lt_seven (by decide) hr
  | none =>
    rw [hr] at h
    exact firstFound_lt_seven (by decide) h

/-- C6: on a bare named weekday (no today/tomorrow/next-week phrase) the
date parser returns the next occurrence strictly after today — seven days
ahead when today already is that weekday, never today itself; and
"tomorrow" has priority over any weekday name, yielding now + 1 day. -/
theorem c6_weekday_dates :
    (∀ (text : String) (today w : Nat),
      reSearch todayRx (pyLower text) = false →
      reSearch tomorrowRx (pyLower text) = false →
      reSearch nextWeekRx (pyLower text) = false →
      firstWeekdayFound text = some w →
      ∃ r, parseNaturalDate text today = some (.fromNow r) ∧
        today < r ∧ r ≤ today + 7 ∧ r % 7 = w ∧
        (today % 7 = w → r = today + 7)) ∧
    (∀ (text : String) (today : Nat),
      reSearch todayRx (pyLower text) = false →
      reSearch tomorrowRx (pyLower text) = true →
      parseNaturalDate text today = some (.fromNow (today + 1))) := by
  constructor
  · intro text today w h1 h2 h3 hw
    have hw7 : w < 7 := firstWeekdayFound_lt_seven hw
    refine ⟨today + daysAhead w (today % 7), ?_, ?_, ?_, ?_, ?_⟩
    · simp only [parseNaturalDate, h1, h2, h3, hw, Bool.false_eq_true, if_false]
    · unfold daysAhead; split_ifs <;> omega
    · unfold daysAhead; split_ifs <;> omega
    · unfold daysAhead; split_ifs <;> omega
    · intro heq; unfold daysAhead; split_ifs <;> omega
  · intro text today h1 h2
    simp only [parseNaturalDate, h1, h2, Bool.false_eq_true, if_false, if_true]

/-- C6 witness: "next monday" with `today = 5` (a Saturday under the
Monday-0 convention) yields the following Monday, and "tomorrow" with
`today = 17` yields day 18. -/
theorem c6_weekday_dates_witness :
    (∃ r, parseNaturalDate "next monday" 5 = some (.fromNow r) ∧
      5 < r ∧ r ≤ 5 + 7 ∧ r % 7 = 0 ∧ (5 % 7 = 0 → r = 5 + 7)) ∧
    parseNaturalDate "tomorrow" 17 = some (.fromNow (17 + 1)) :=
  ⟨c6_weekday_dates.1 "next monday" 5 0 (by decide) (by decide) (by decide) (by decide),
   c6_weekday_dates.2 "tomorrow" 17 (by decide) (by decide)⟩

/-- C7: the language detector returns "urdu" exactly when the count of
characters in U+0600–U+06FF exceeds 30% of the non-whitespace character
count, and "english" otherwise; empty or whitespace-only text returns
"english"; one secondary character of four (25%) gives "english", one of
three (33%) gives "urdu". -/
theorem c7_language_threshold :
    (∀ t : String, detect_language t = "urdu" ↔
      100 * urduCharCount t > 30 * nonSpaceCount t) ∧
    (∀ t : String, detect_language t ≠ "urdu" → detect_language t = "english") ∧
    detect_language "" = "english" ∧
    detect_language "   " = "english" ∧
    detect_language "abcم" = "english" ∧
    detect_language "abم" = "urdu" := by
  refine ⟨fun t => ?_, fun t => ?_, by decide, by decide, by decide, by decide⟩
  · have e : detect_language t =
        if t = "" ∨ pyStrip t = "" then "english"
        else if nonSpaceCount t = 0 then "english"
        else if 100 * urduCharCount t > 30 * nonSpaceCount t then "urdu"
        else "english" := rfl
    rw [e]
    split_ifs with h1 h2 h3
    · constructor
      · intro h; exact absurd h (by decide)
      · intro h
        exfalso
        have htot : nonSpaceCount t = 0 := by
          rcases h1 with h1 | h1
          · subst h1; rfl
          · have hall : ∀ c ∈ t.data, pyIsSpace c = true :=
              strip_empty_all_space (congrArg String.data h1)
            unfold nonSpaceCount
            rw [List.countP_eq_zero]
            intro c hc
            simp [hall c hc]
        have := urdu_le_nonspace t
        omega
    · constructor
      · intro h; exact absurd h (by decide)
      · intro h
        have := urdu_le_nonspace t
        omega
    · simp only [true_iff]
      exact h3
    · constructor
      · intro h; exact absurd h (by decide)
      · intro h; exact absurd h h3
  · have e : detect_language t =
        if t = "" ∨ pyStrip t = "" then "english"
        else if nonSpaceCount t = 0 then "english"
        else if 100 * urduCharCount t > 30 * nonSpaceCount t then "urdu"
        else "english" := rfl
    rw [e]
    split_ifs <;> simp

/-- A carried truthy title short-circuits the whole title block. -/
theorem computeTitle_of_truthy {m : String} {cs : Option ConvState} {i : ConvState}
    (h : strTruthy i.title = true) : computeTitle m cs i = i.title := by
  unfold computeTitle
  rw [h]
  simp

/-- C2 counterexample: with prior mapping {1: 0} and task_count 1, the
message "complete task 1" extracts 1, the mapping is nonempty, 1 is in
range and maps to 0 — yet the resolver returns nothing instead of the
mapped identifier, because a zero mapped value fails `if task_id:`. -/
theorem c2_zero_mapped_counterexample :
    extractTaskNumber "complete task 1" = some 1 ∧
    stateMappingCoerced (some { task_mapping := [(.int 1, 0)], task_count := some 1 }) ≠ [] ∧
    stateTaskCount (some { task_mapping := [(.int 1, 0)], task_count := some 1 }) = 1 ∧
    dictGet (stateMappingCoerced
      (some { task_mapping := [(.int 1, 0)], task_count := some 1 })) 1 = some 0 ∧
    resolveTaskReference "complete task 1" "u1"
      (some { task_mapping := [(.int 1, 0)], task_count := some 1 }) [] = none := by
  exact ⟨by decide, by decide, by decide, by decide, by decide⟩

/-- C2 (amended): if a number `n ≥ 1` is extracted, the coerced mapping is
nonempty, `n` is within `[1, task_count]`, and position `n` maps to a
nonzero identifier `v`, the resolver returns `v`, never the literal
`n`. -/
theorem c2_positional_resolution (msg uid : String) (st : Option ConvState)
    (tasks : List TaskRow) (n : Nat) (v : Int)
    (hn : extractTaskNumber msg = some n)
    (hm : stateMappingCoerced st ≠ [])
    (h1 : 1 ≤ n)
    (h2 : (n : Int) ≤ stateTaskCount st)
    (hv : dictGet (stateMappingCoerced st) (n : Int) = some v)
    (hv0 : v ≠ 0) :
    resolveTaskReference msg uid st tasks = some v := by
  have hn0 : n ≠ 0 := by omega
  simp only [resolveTaskReference, hn]
  rw [if_pos ⟨hn0, hm, h1, h2⟩, hv]
  simp [hv0]

/-- C2 witness: mapping {"1": 42, 2: 7} (note the stringified key),
task_count 2, "complete task 1" resolves positionally to 42. -/
theorem c2_positional_resolution_witness :
    resolveTaskReference "complete task 1" "u1"
      (some { task_mapping := [(.str "1", 42), (.int 2, 7)], task_count := some 2 })
      [] = some 42 :=
  c2_positional_resolution "complete task 1" "u1"
    (some { task_mapping := [(.str "1", 42), (.int 2, 7)], task_count := some 2 })
    [] 1 42 (by decide) (by decide) (by decide) (by decide) (by decide) (by decide)

/-- C3 counterexample: "task 0" extracts the number 0 with no mapping in
state (so the positional step does not apply), yet the resolver returns
nothing instead of the direct ID 0: Python's `if number:` treats an
extracted 0 as no number at all. -/
theorem c3_zero_number_counterexample :
    extractTaskNumber "task 0" = some 0 ∧
    stateMappingCoerced none = [] ∧
    resolveTaskReference "task 0" "u1" none [] = none := by
  exact ⟨by decide, by decide, by decide⟩

/-- Direct-ID fallback of the resolver (shared helper): an extracted
positive number outside the positional step resolves to itself. -/
theorem resolve_direct_id_aux (msg uid : String) (st : Option ConvState)
    (tasks : List TaskRow) (n : Nat)
    (hn : extractTaskNumber msg = some n)
    (h1 : 1 ≤ n)
    (hd : stateMappingCoerced st = [] ∨ (n : Int) > stateTaskCount st) :
    resolveTaskReference msg uid st tasks = some (n : Int) := by
  have hn0 : n ≠ 0 := by omega
  have hbne : (n != 0) = true := by simpa using hn0
  have hnotp1 : ¬(n ≠ 0 ∧ stateMappingCoerced st ≠ [] ∧ 1 ≤ n ∧
      (n : Int) ≤ stateTaskCount st) := by
    rcases hd with hd | hd
    · rintro ⟨-, hne, -, -⟩; exact hne hd
    · rintro ⟨-, -, -, hle⟩; omega
  simp only [resolveTaskReference, hn]
  rw [if_neg hnotp1, hbne]
  simp
  refine ⟨hn0, fun hne => ?_⟩
  rcases hd with hd' | hd'
  · exact absurd hd' hne
  · omega

/-- C3 (amended): if a number `n ≥ 1` is extracted and the positional step
does not apply — no mapping, or `n` beyond `task_count` — the resolver
returns `n` itself as the durable ID. -/
theorem c3_direct_id_fallback (msg uid : String) (st : Option ConvState)
    (tasks : List TaskRow) (n : Nat)
    (hn : extractTaskNumber msg = some n)
    (h1 : 1 ≤ n)
    (hd : stateMappingCoerced st = [] ∨ (n : Int) > stateTaskCount st) :
    resolveTaskReference msg uid st tasks = some (n : Int) :=
  resolve_direct_id_aux msg uid st tasks n hn h1 hd

/-- C3 witness: with no mapping in state, "complete task 36" resolves to
the direct ID 36. -/
theorem c3_direct_id_fallback_witness :
    resolveTaskReference "complete task 36" "u1" none [] = some 36 :=
  c3_direct_id_fallback "complete task 36" "u1" none [] 36 (by decide) (by decide)
    (Or.inl (by decide))

/-- C5 counterexample: the prior priority "high" is overwritten to "low"
by the bare word "low" although the message contains no structured
`priority:` field — natural-language fallback matches also overwrite
filled slots. -/
theorem c5_fallback_overwrite_counterexample :
    extractPriorityStructured "low" = none ∧
    (extractTaskInfo "low" (some examplePriorHigh) 0).priority = some "low" := by
  exact ⟨by decide, by decide⟩

/-- C5 (amended): the extractor overwrites the priority, category and
due-date slots whenever the message yields any extraction for them —
structured or natural-language fallback — and preserves them exactly when
no extraction matches; the title slot, once non-empty in the prior state,
is never overwritten. -/
theorem c5_slot_overwrite (msg : String) (st : ConvState) (today : Nat) :
    (strTruthy st.title = true →
      (extractTaskInfo msg (some st) today).title = st.title) ∧
    ((extractTaskInfo msg (some st) today).priority =
      match extractPriority msg with
      | some p => some p
      | none => st.priority) ∧
    ((extractTaskInfo msg (some st) today).category =
      match extractCategory msg with
      | some c => some c
      | none => st.category) ∧
    ((extractTaskInfo msg (some st) today).due_date =
      match extractDueDate msg today with
      | some d => some d
      | none => st.due_date) := by
  unfold extractTaskInfo applyDuePhase applyCategoryPhase applyPriorityPhase applyTitlePhase
  cases hp : extractPriority msg <;> cases hc : extractCategory msg <;>
    cases hd : extractDueDate msg today <;>
    exact ⟨fun h => computeTitle_of_truthy h, rfl, rfl, rfl⟩

/-- C5 witness: with prior `{title: "x", priority: "high", category:
"old"}` the message "work" leaves title and priority untouched, rewrites
category through the fallback vocabulary, and leaves the due date
absent. -/
theorem c5_slot_overwrite_witness :
    (extractTaskInfo "work" (some examplePriorHighOld) 3).title = some "x" ∧
    (extractTaskInfo "work" (some examplePriorHighOld) 3).priority = some "high" ∧
    (extractTaskInfo "work" (some examplePriorHighOld) 3).category = some "work" ∧
    (extractTaskInfo "work" (some examplePriorHighOld) 3).due_date = none := by
  obtain ⟨h1, h2, h3, h4⟩ := c5_slot_overwrite "work" examplePriorHighOld 3
  exact ⟨h1 (by decide), h2.trans (by decide), h3.trans (by decide), h4.trans (by decide)⟩

/-- C4 counterexample: the message "mark task done" is classified as a
complete-intent, but a carried `adding_task` slot-filling state takes
precedence: the turn runs the add flow and the persisted state is not the
prior state. -/
theorem c4_adding_state_counterexample :
    detectIntent "mark task done" = some "completing_task" ∧
    (parseAndExecuteTools exampleEnvOk "u1" "mark task done"
      (some exampleAddingState)).2 ≠ some exampleAddingState := by
  exact ⟨by decide, by decide⟩

/-- C4 (amended): for every turn classified as a complete- or
delete-intent whose prior state is not a carried `adding_task`
slot-filling state, the persisted state equals the prior state exactly,
regardless of reference resolution and of CRUD success, failure or
raise. -/
theorem c4_state_preserved (env : ChatEnv) (uid msg : String) (st : Option ConvState)
    (hi : detectIntent msg = some "completing_task" ∨
          detectIntent msg = some "deleting_task")
    (hs : stateIsAdding st = false) :
    (parseAndExecuteTools env uid msg st).2 = st := by
  unfold parseAndExecuteTools
  rcases hi with hi | hi <;> rw [hi]
  · rw [if_neg (by simp [hs]), if_neg (by simp), if_pos rfl]
    cases resolveTaskReference msg uid st env.tasks with
    | none => rfl
    | some t =>
      dsimp only
      by_cases ht : t ≠ 0
      · rw [if_pos ht]
        cases env.callTool "complete_task" { user_id := uid, task_id := some (toString t) } <;>
          rfl
      · rw [if_neg ht]
  · rw [if_neg (by simp [hs]), if_neg (by simp), if_neg (by simp), if_pos rfl]
    cases resolveTaskReference msg uid st env.tasks with
    | none => rfl
    | some t =>
      dsimp only
      by_cases ht : t ≠ 0
      · rw [if_pos ht]
        cases env.callTool "delete_task" { user_id := uid, task_id := some (toString t) } <;>
          rfl
      · rw [if_neg ht]

/-- C4 witness: a complete-intent turn whose CRUD collaborator raises
still persists the prior mapping state unchanged. -/
theorem c4_state_preserved_witness :
    (parseAndExecuteTools exampleEnvCrudDown "u1" "complete task 1"
      (some exampleMappingState)).2 = some exampleMappingState :=
  c4_state_preserved exampleEnvCrudDown "u1" "complete task 1"
    (some exampleMappingState) (Or.inl (by decide)) (by decide)

/-- C8 counterexample: a completion-service failure is not captured — the
turn raises HTTP 500 "AI service temporarily unavailable. Please try
again." across the orchestrator boundary and produces no assistant
reply. -/
theorem c8_completion_failure_counterexample :
    sendMessage exampleEnvDown "u1" "hello" none =
      .error { status := 500,
               detail := "AI service temporarily unavailable. Please try again." } := rfl

/-- C8 (amended): a CRUD tool failure is captured as a structured
`success: false` tool result and the turn still produces exactly one
assistant reply whenever the completion service succeeds; a
completion-service failure, by contrast, is raised across the
orchestrator boundary as a 500 "temporarily unavailable" error and the
turn produces no assistant reply. -/
theorem c8_failure_capture (env : ChatEnv) (uid msg : String) (st : Option ConvState) :
    (∀ t, env.completion = .ok t →
      sendMessage env uid msg st =
        .ok { response := t, toolCalls := (parseAndExecuteTools env uid msg st).1,
              savedState := (parseAndExecuteTools env uid msg st).2 }) ∧
    (∀ e, env.completion = .error e →
      sendMessage env uid msg st =
        .error { status := 500,
                 detail := "AI service temporarily unavailable. Please try again." }) ∧
    (∀ e, detectIntent msg = some "listing_tasks" → stateIsAdding st = false →
      env.callTool "list_tasks" { user_id := uid, status := some "all", limit := some 100 } =
        .error e →
      (parseAndExecuteTools env uid msg st).1 =
        [{ tool := "list_tasks", success := false, error := some e }]) := by
  refine ⟨fun t ht => ?_, fun e he => ?_, fun e hi hs hc => ?_⟩
  · simp only [sendMessage, callOpenrouterSimple, ht]
  · simp only [sendMessage, callOpenrouterSimple, he]
  · unfold parseAndExecuteTools
    rw [hi, if_neg (by simp [hs]), if_pos rfl, hc]

/-- C8 witness: with a raising CRUD collaborator the turn still yields one
reply carrying the structured failure, and with a failing completion
service the turn is the 500 error. -/
theorem c8_failure_capture_witness :
    sendMessage exampleEnvCrudDown "u1" "show my tasks" none =
      .ok { response := "done",
            toolCalls := [{ tool := "list_tasks", success := false, error := some "db down" }],
            savedState := none } ∧
    sendMessage exampleEnvDown "u1" "hello" none =
      .error { status := 500,
               detail := "AI service temporarily unavailable. Please try again." } := by
  constructor
  · exact ((c8_failure_capture exampleEnvCrudDown "u1" "show my tasks" none).1
      "done" rfl).trans (by rfl)
  · exact (c8_failure_capture exampleEnvDown "u1" "hello" none).2.1 "connection error" rfl

/-- C9 counterexample: after an empty list result no state is persisted —
but the numeric reference "task 0" on the following turn then resolves to
nothing, not to the direct database ID 0, because an extracted 0 is falsy
in Python. -/
theorem c9_zero_reference_counterexample :
    (parseAndExecuteTools exampleEnvEmptyList "u1" "show my tasks" none).2 = none ∧
    extractTaskNumber "complete task 0" = some 0 ∧
    resolveTaskReference "complete task 0" "u1"
      (parseAndExecuteTools exampleEnvEmptyList "u1" "show my tasks" none).2 [] = none := by
  exact ⟨by decide, by decide, by decide⟩

/-- C9 (amended): when a list-intent turn's `list_tasks` call fails or
returns zero tasks, no conversation state is persisted, and a numeric
reference `task n` with `n ≥ 1` on the following turn resolves as the
direct database ID `n`, never positionally. -/
theorem c9_empty_list_no_state (env : ChatEnv) (uid msg : String) (st : Option ConvState)
    (hi : detectIntent msg = some "listing_tasks")
    (hs : stateIsAdding st = false)
    (hr : ∀ r, env.callTool "list_tasks"
        { user_id := uid, status := some "all", limit := some 100 } = .ok r →
        r.success = false ∨ r.tasks = []) :
    (parseAndExecuteTools env uid msg st).2 = none ∧
    (∀ (msg2 uid2 : String) (tasks : List TaskRow) (n : Nat),
      extractTaskNumber msg2 = some n → 1 ≤ n →
      resolveTaskReference msg2 uid2 (parseAndExecuteTools env uid msg st).2 tasks =
        some (n : Int)) := by
  have hmain : (parseAndExecuteTools env uid msg st).2 = none := by
    unfold parseAndExecuteTools
    rw [hi, if_neg (by simp [hs]), if_pos rfl]
    cases hc : env.callTool "list_tasks"
        { user_id := uid, status := some "all", limit := some 100 } with
    | error e => rfl
    | ok r =>
      dsimp only
      rcases hr r hc with h | h
      · rw [if_neg (by simp [h])]
      · rw [if_neg (by simp [h])]
  refine ⟨hmain, fun msg2 uid2 tasks n hn h1 => ?_⟩
  rw [hmain]
  exact resolve_direct_id_aux msg2 uid2 none tasks n hn h1 (Or.inl rfl)

/-- C9 witness: a successful but empty list persists no state, and "task
7" next turn resolves directly to ID 7. -/
theorem c9_empty_list_no_state_witness :
    (parseAndExecuteTools exampleEnvEmptyList "u1" "show my tasks" none).2 = none ∧
    resolveTaskReference "complete task 7" "u1"
      (parseAndExecuteTools exampleEnvEmptyList "u1" "show my tasks" none).2 [] =
      some 7 := by
  obtain ⟨h1, h2⟩ := c9_empty_list_no_state exampleEnvEmptyList "u1" "show my tasks" none
    (by decide) (by decide)
    (fun r hr => by
      simp only [exampleEnvEmptyList] at hr
      injection hr with h
      subst h
      exact Or.inr rfl)
  exact ⟨h1, h2 "complete task 7" "u1" [] 7 (by decide) (by decide)⟩

/-- C10: `complete_task` on an already-completed owned task succeeds again
with no already-completed error; the stored row keeps `completed = true`
and only the `completed_at` and `updated_at` timestamps change. -/
theorem c10_complete_idempotent (store : List TaskRow) (t : TaskRow)
    (uid tid : String) (now : Nat)
    (huidne : pyStrip uid ≠ "")
    (hstrip : pyStrip tid ≠ "")
    (hid : pyParseInt tid = some t.id)
    (hget : storeGet store t.id = some t)
    (huid : t.user_id = uid)
    (hdone : t.completed = true) :
    (complete_task uid tid store now).1.success = true ∧
    (complete_task uid tid store now).1.error = none ∧
    (complete_task uid tid store now).2 =
      storeUpdate store
        { t with completed := true, completed_at := some now, updated_at := now } ∧
    ({ t with completed := true, completed_at := some now, updated_at := now } : TaskRow) =
      { t with completed_at := some now, updated_at := now } := by
  have hres : complete_task uid tid store now =
      ({ success := true, taskId := some t.id, completed := some true,
         completed_at := some now, updated_at := some now,
         message := some "Task marked as completed" },
       storeUpdate store
         { t with completed := true, completed_at := some now, updated_at := now }) := by
    unfold complete_task
    rw [if_neg huidne, if_neg hstrip, hid]
    simp only [hget, huid]
    rw [if_neg (by simp)]
  refine ⟨by rw [hres], by rw [hres], by rw [hres], ?_⟩
  cases t
  subst hdone
  rfl

/-- C10 witness: completing the already-completed task 5 again succeeds
and rewrites only its timestamps. -/
theorem c10_complete_idempotent_witness :
    (complete_task "u1" "5" [exampleDoneTask] 9).1.success = true ∧
    (complete_task "u1" "5" [exampleDoneTask] 9).1.error = none ∧
    (complete_task "u1" "5" [exampleDoneTask] 9).2 =
      [{ exampleDoneTask with completed_at := some 9, updated_at := 9 }] := by
  obtain ⟨h1, h2, h3, h4⟩ := c10_complete_idempotent [exampleDoneTask] exampleDoneTask
    "u1" "5" 9 (by decide) (by decide) (by decide) (by decide) (by decide) (by decide)
  exact ⟨h1, h2, h3.trans (by decide)⟩

end Todo
